import Mathlib

/-!
Verification of the transfer flow in my-first-transaction/transaction.py.

The script is a straight line of collaborator calls (fund, balance queries,
chain id and account fetches, simulation, signing, submission, confirmation,
final balance queries).  It is embedded as a function from an environment of
collaborator responses to the ordered list of calls the script issues, the
final bindings of its local variables, and the error that aborted the run,
if any.  Numeric fields that the ledger API transports as decimal strings
and that the script converts with int are modelled directly as naturals.
-/

/-- Addresses (fixed-length byte identifiers) are modelled as naturals. -/
abbrev Address := Nat

/-- A value passed as a transaction argument by the script. -/
inductive ArgValue where
  | addr (a : Address)
  | u64 (n : Nat)
  deriving DecidableEq

/-- Serialization tag attached to each argument, matching Serializer.struct
and Serializer.u64 at lines 54 and 55 of transaction.py. -/
inductive Serializer where
  | struct
  | u64
  deriving DecidableEq

/-- TransactionArgument(value, serializer) from lines 54 and 55. -/
structure TransactionArgument where
  value : ArgValue
  serializer : Serializer
  deriving DecidableEq

/-- EntryFunction.natural(module, function, type_args, args) from line 48. -/
structure EntryFunction where
  module_name : String
  function_name : String
  ty_args : List String
  args : List TransactionArgument
  deriving DecidableEq

/-- TransactionPayload wrapping an entry function (lines 70, 91 and 107). -/
structure TransactionPayload where
  entry : EntryFunction
  deriving DecidableEq

/-- The RawTransaction assembled at lines 67 to 75, field for field. -/
structure RawTransaction where
  sender : Address
  sequence_number : Nat
  payload : TransactionPayload
  max_gas_amount : Nat
  gas_unit_price : Nat
  expiration_timestamps_secs : Nat
  chain_id : Nat
  deriving DecidableEq

/-- Modelled from the spec: the SDK function create_bcs_signed_transaction is
absent from the repository.  Per spec section 4.4 the Signer is a function of
exactly the signing account, the payload and the sequence number, so the
signed artifact is modelled as the record of those three inputs. -/
structure SignedTransaction where
  signer : Address
  payload : TransactionPayload
  sequence_number : Nat
  deriving DecidableEq

/-- Modelled from the spec: the BCS transaction object built for simulation at
line 91 comes from the absent SDK; it is treated as an opaque handle. -/
abbrev BcsTransaction := Nat

/-- One element of the simulation response list (line 92).  The script reads
gas_used, gas_unit_price and success; vm_status (the predicted failure
reason) is present in the collaborator response but never read by the
script. -/
structure SimulationOutput where
  gas_used : Nat
  gas_unit_price : Nat
  success : Bool
  vm_status : String
  deriving DecidableEq

/-- The confirmed receipt fetched at line 123: the script reads success,
vm_status and gas_used from it. -/
structure TxDetails where
  success : Bool
  vm_status : String
  gas_used : Nat
  deriving DecidableEq

/-- Error kinds of the collaborators, from spec section 7, plus Other for
runtime faults of the script itself. -/
inductive CollabError where
  | FundingError
  | AccountNotFound
  | StaleSequenceNumber
  | ConfirmationTimeout
  | TransactionNotFound
  | Other (msg : String)
  deriving DecidableEq

/-- One external collaborator call issued by the script, with its arguments
as the script passes them. -/
inductive Call where
  | fundAccount (addr : Address) (amount : Nat)
  | accountBalance (addr : Address)
  | chainId
  | account (addr : Address)
  | createBcsTransaction (sender : Address) (payload : TransactionPayload)
  | simulateTransaction (txn : BcsTransaction) (sender : Address)
  | createBcsSignedTransaction (sender : Address) (payload : TransactionPayload)
      (sequence_number : Nat)
  | submitBcsTransaction (txn : SignedTransaction)
  | waitForTransaction (txn_hash : String)
  | transactionByHash (txn_hash : String)
  deriving DecidableEq

/-- The operation kind of a call, forgetting its arguments. -/
inductive CallKind where
  | fund
  | balanceQuery
  | chainIdFetch
  | accountFetch
  | bcsCreate
  | simulate
  | sign
  | submit
  | waitFinal
  | receiptFetch
  deriving DecidableEq

/-- Kind of a call. -/
def Call.kind : Call → CallKind
  | .fundAccount _ _ => .fund
  | .accountBalance _ => .balanceQuery
  | .chainId => .chainIdFetch
  | .account _ => .accountFetch
  | .createBcsTransaction _ _ => .bcsCreate
  | .simulateTransaction _ _ => .simulate
  | .createBcsSignedTransaction _ _ _ => .sign
  | .submitBcsTransaction _ => .submit
  | .waitForTransaction _ => .waitFinal
  | .transactionByHash _ => .receiptFetch

/-- Number of calls of a given kind in a trace. -/
def countKind (k : CallKind) (calls : List Call) : Nat :=
  calls.countP (fun c => decide (c.kind = k))

/-- The environment of collaborator responses: one response per call the
script can issue, in program order, plus the values the script reads locally
(the generated addresses and the current time at assembly). -/
structure Env where
  aliceAddr : Address
  bobAddr : Address
  now : Nat
  fundAliceR : Except CollabError Unit
  balanceAliceInitialR : Except CollabError Nat
  balanceBobInitialR : Except CollabError Nat
  chainIdR : Except CollabError Nat
  accountAliceR : Except CollabError Nat
  createBcsR : Except CollabError BcsTransaction
  simulateR : Except CollabError (List SimulationOutput)
  signR : Except CollabError Unit
  submitR : Except CollabError String
  waitR : Except CollabError Unit
  transactionByHashR : Except CollabError TxDetails
  balanceAliceFinalR : Except CollabError Nat
  balanceBobFinalR : Except CollabError Nat

/-- The local variables of main bound from collaborator data.  A field is
none while the variable is not yet bound.  gas_used and success are each
bound twice by the script (simulation stage, then receipt stage); the single
field per name models the single Python variable that is rebound. -/
structure Locals where
  alice_balance : Option Nat := none
  bob_balance : Option Nat := none
  entry_function : Option EntryFunction := none
  chain_id : Option Nat := none
  sequence_number : Option Nat := none
  raw_transaction : Option RawTransaction := none
  simulation_transaction : Option BcsTransaction := none
  gas_used : Option Nat := none
  gas_unit_price : Option Nat := none
  success : Option Bool := none
  signed_transaction : Option SignedTransaction := none
  transaction_hash : Option String := none
  vm_status : Option String := none
  alice_final_balance : Option Nat := none
  bob_final_balance : Option Nat := none
  deriving DecidableEq

/-- Result of running a prefix of the flow: the locals bound so far, the
calls issued in order, and the error that aborted the flow, if any. -/
structure StageOut where
  locals : Locals
  calls : List Call
  failure : Option CollabError
  deriving DecidableEq

/-- Sequential composition of stages: once a stage has failed, nothing later
runs (an uncaught exception propagates out of main). -/
def StageOut.step (s : StageOut) (f : Locals → StageOut) : StageOut :=
  match s.failure with
  | some _ => s
  | none =>
    let t := f s.locals
    ⟨t.locals, s.calls ++ t.calls, t.failure⟩

/-- Line 30: 1 APT = 100,000,000 octas. -/
def alice_amount : Nat := 100000000

/-- Line 31: Bob starts with 0 APT. -/
def bob_amount : Nat := 0

/-- Lines 48 to 57: the transfer entry function, sending 1000 octas to the
recipient address. -/
def entry_function (bobAddr : Address) : EntryFunction :=
  { module_name := "0x1::aptos_account"
    function_name := "transfer"
    ty_args := []
    args := [⟨ArgValue.addr bobAddr, Serializer.struct⟩,
             ⟨ArgValue.u64 1000, Serializer.u64⟩] }

/-- Line 33: fund alice with alice_amount octas. -/
def stageFund (env : Env) (l : Locals) : StageOut :=
  match env.fundAliceR with
  | .error e => ⟨l, [Call.fundAccount env.aliceAddr alice_amount], some e⟩
  | .ok _ => ⟨l, [Call.fundAccount env.aliceAddr alice_amount], none⟩

/-- Lines 38 and 39: initial balance queries for alice and bob. -/
def stageInitialBalances (env : Env) (l : Locals) : StageOut :=
  match env.balanceAliceInitialR with
  | .error e => ⟨l, [Call.accountBalance env.aliceAddr], some e⟩
  | .ok a =>
    match env.balanceBobInitialR with
    | .error e =>
      ⟨{ l with alice_balance := some a },
       [Call.accountBalance env.aliceAddr, Call.accountBalance env.bobAddr], some e⟩
    | .ok b =>
      ⟨{ l with alice_balance := some a, bob_balance := some b },
       [Call.accountBalance env.aliceAddr, Call.accountBalance env.bobAddr], none⟩

/-- Lines 48 to 75: build the entry function locally, fetch the chain id and
the sequence number, then assemble the RawTransaction from them. -/
def stageBuild (env : Env) (l : Locals) : StageOut :=
  let ef := entry_function env.bobAddr
  let l1 := { l with entry_function := some ef }
  match env.chainIdR with
  | .error e => ⟨l1, [Call.chainId], some e⟩
  | .ok cid =>
    let l2 := { l1 with chain_id := some cid }
    match env.accountAliceR with
    | .error e => ⟨l2, [Call.chainId, Call.account env.aliceAddr], some e⟩
    | .ok seq =>
      let raw : RawTransaction :=
        { sender := env.aliceAddr
          sequence_number := seq
          payload := ⟨ef⟩
          max_gas_amount := 2000
          gas_unit_price := 100
          expiration_timestamps_secs := env.now + 600
          chain_id := cid }
      ⟨{ l2 with sequence_number := some seq, raw_transaction := some raw },
       [Call.chainId, Call.account env.aliceAddr], none⟩

/-- Lines 91 to 96: create the BCS transaction for simulation, simulate it,
and bind gas_used, gas_unit_price and success from element 0 of the result
list.  The vm_status of the simulation output is never read. -/
def stageSimulate (env : Env) (l : Locals) : StageOut :=
  match l.entry_function with
  | none => ⟨l, [], some (CollabError.Other "NameError")⟩
  | some ef =>
    match env.createBcsR with
    | .error e => ⟨l, [Call.createBcsTransaction env.aliceAddr ⟨ef⟩], some e⟩
    | .ok st =>
      let l1 := { l with simulation_transaction := some st }
      match env.simulateR with
      | .error e =>
        ⟨l1, [Call.createBcsTransaction env.aliceAddr ⟨ef⟩,
              Call.simulateTransaction st env.aliceAddr], some e⟩
      | .ok [] =>
        ⟨l1, [Call.createBcsTransaction env.aliceAddr ⟨ef⟩,
              Call.simulateTransaction st env.aliceAddr],
         some (CollabError.Other "IndexError")⟩
      | .ok (r :: _) =>
        ⟨{ l1 with gas_used := some r.gas_used,
                   gas_unit_price := some r.gas_unit_price,
                   success := some r.success },
         [Call.createBcsTransaction env.aliceAddr ⟨ef⟩,
          Call.simulateTransaction st env.aliceAddr], none⟩

/-- Lines 105 to 109: sign, passing the payload built from entry_function and
the sequence number fetched for building.  The signed artifact is the spec
Signer applied to the account, the payload and the sequence number. -/
def stageSign (env : Env) (l : Locals) : StageOut :=
  match l.entry_function, l.sequence_number with
  | some ef, some seq =>
    match env.signR with
    | .error e =>
      ⟨l, [Call.createBcsSignedTransaction env.aliceAddr ⟨ef⟩ seq], some e⟩
    | .ok _ =>
      ⟨{ l with signed_transaction := some ⟨env.aliceAddr, ⟨ef⟩, seq⟩ },
       [Call.createBcsSignedTransaction env.aliceAddr ⟨ef⟩ seq], none⟩
  | _, _ => ⟨l, [], some (CollabError.Other "NameError")⟩

/-- Line 116: submit the signed transaction, receiving the hash. -/
def stageSubmit (env : Env) (l : Locals) : StageOut :=
  match l.signed_transaction with
  | none => ⟨l, [], some (CollabError.Other "NameError")⟩
  | some stx =>
    match env.submitR with
    | .error e => ⟨l, [Call.submitBcsTransaction stx], some e⟩
    | .ok h =>
      ⟨{ l with transaction_hash := some h }, [Call.submitBcsTransaction stx], none⟩

/-- Lines 121 to 126: wait for the transaction, fetch it by hash, and rebind
success, vm_status and gas_used from the confirmed receipt. -/
def stageConfirm (env : Env) (l : Locals) : StageOut :=
  match l.transaction_hash with
  | none => ⟨l, [], some (CollabError.Other "NameError")⟩
  | some h =>
    match env.waitR with
    | .error e => ⟨l, [Call.waitForTransaction h], some e⟩
    | .ok _ =>
      match env.transactionByHashR with
      | .error e =>
        ⟨l, [Call.waitForTransaction h, Call.transactionByHash h], some e⟩
      | .ok d =>
        ⟨{ l with success := some d.success, vm_status := some d.vm_status,
                  gas_used := some d.gas_used },
         [Call.waitForTransaction h, Call.transactionByHash h], none⟩

/-- Lines 133 and 134: final balance queries for alice and bob. -/
def stageFinalBalances (env : Env) (l : Locals) : StageOut :=
  match env.balanceAliceFinalR with
  | .error e => ⟨l, [Call.accountBalance env.aliceAddr], some e⟩
  | .ok a =>
    match env.balanceBobFinalR with
    | .error e =>
      ⟨{ l with alice_final_balance := some a },
       [Call.accountBalance env.aliceAddr, Call.accountBalance env.bobAddr], some e⟩
    | .ok b =>
      ⟨{ l with alice_final_balance := some a, bob_final_balance := some b },
       [Call.accountBalance env.aliceAddr, Call.accountBalance env.bobAddr], none⟩

/-- The flow through the funding call (line 33). -/
def afterFund (env : Env) : StageOut := stageFund env {}

/-- The flow through the initial balance queries (line 39). -/
def afterInitialBalances (env : Env) : StageOut :=
  (afterFund env).step (stageInitialBalances env)

/-- The flow through the assembly of the RawTransaction (line 75). -/
def afterBuild (env : Env) : StageOut :=
  (afterInitialBalances env).step (stageBuild env)

/-- The flow through the simulation stage (line 96). -/
def afterSimulate (env : Env) : StageOut :=
  (afterBuild env).step (stageSimulate env)

/-- The flow through the signing stage (line 109). -/
def afterSign (env : Env) : StageOut :=
  (afterSimulate env).step (stageSign env)

/-- The flow through the submission stage (line 116). -/
def afterSubmit (env : Env) : StageOut :=
  (afterSign env).step (stageSubmit env)

/-- The flow through confirmation and receipt fetch (line 126). -/
def afterConfirm (env : Env) : StageOut :=
  (afterSubmit env).step (stageConfirm env)

/-- The whole flow, lines 16 to 138 of transaction.py. -/
def mainFlow (env : Env) : StageOut :=
  (afterConfirm env).step (stageFinalBalances env)

/-- An environment in which every collaborator call succeeds, parameterized
by the returned values. -/
def okEnv (a b now cid seq : Nat) (st : BcsTransaction) (sim : SimulationOutput)
    (h : String) (d : TxDetails) (ba0 bb0 ba1 bb1 : Nat) : Env :=
  { aliceAddr := a
    bobAddr := b
    now := now
    fundAliceR := .ok ()
    balanceAliceInitialR := .ok ba0
    balanceBobInitialR := .ok bb0
    chainIdR := .ok cid
    accountAliceR := .ok seq
    createBcsR := .ok st
    simulateR := .ok [sim]
    signR := .ok ()
    submitR := .ok h
    waitR := .ok ()
    transactionByHashR := .ok d
    balanceAliceFinalR := .ok ba1
    balanceBobFinalR := .ok bb1 }

/-- The thirteen collaborator calls of a complete run, in program order. -/
def fullTrace (a b : Address) (st : BcsTransaction) (seq : Nat) (h : String) :
    List Call :=
  [Call.fundAccount a alice_amount,
   Call.accountBalance a,
   Call.accountBalance b,
   Call.chainId,
   Call.account a,
   Call.createBcsTransaction a ⟨entry_function b⟩,
   Call.simulateTransaction st a,
   Call.createBcsSignedTransaction a ⟨entry_function b⟩ seq,
   Call.submitBcsTransaction ⟨a, ⟨entry_function b⟩, seq⟩,
   Call.waitForTransaction h,
   Call.transactionByHash h,
   Call.accountBalance a,
   Call.accountBalance b]

/-- A complete run in a fully successful environment: the calls are exactly
fullTrace and the final locals hold the receipt values for gas_used, success
and vm_status while gas_unit_price keeps the simulation value. -/
lemma mainFlow_okEnv (a b now cid seq : Nat) (st : BcsTransaction)
    (sim : SimulationOutput) (h : String) (d : TxDetails) (ba0 bb0 ba1 bb1 : Nat) :
    mainFlow (okEnv a b now cid seq st sim h d ba0 bb0 ba1 bb1) =
      ⟨{ alice_balance := some ba0
         bob_balance := some bb0
         entry_function := some (entry_function b)
         chain_id := some cid
         sequence_number := some seq
         raw_transaction := some ⟨a, seq, ⟨entry_function b⟩, 2000, 100, now + 600, cid⟩
         simulation_transaction := some st
         gas_used := some d.gas_used
         gas_unit_price := some sim.gas_unit_price
         success := some d.success
         signed_transaction := some ⟨a, ⟨entry_function b⟩, seq⟩
         transaction_hash := some h
         vm_status := some d.vm_status
         alice_final_balance := some ba1
         bob_final_balance := some bb1 },
       fullTrace a b st seq h, none⟩ := rfl

/-- C1: the Signer uses the exact same sequence number and the exact same
transfer payload in the SignedTransaction that is subsequently submitted:
the sequence number passed to signing (call at position 7 of the trace)
equals the sequence number fetched for building, and the payload signed
equals, as a value, the payload placed in the assembled RawTransaction. -/
theorem signer_uses_fetched_sequence_and_built_payload
    (a b now cid seq : Nat) (st : BcsTransaction) (sim : SimulationOutput)
    (h : String) (d : TxDetails) (ba0 bb0 ba1 bb1 : Nat) :
    ∃ raw : RawTransaction, ∃ stx : SignedTransaction,
      (mainFlow (okEnv a b now cid seq st sim h d ba0 bb0 ba1 bb1)).locals.raw_transaction
          = some raw
      ∧ (mainFlow (okEnv a b now cid seq st sim h d ba0 bb0 ba1 bb1)).locals.signed_transaction
          = some stx
      ∧ (mainFlow (okEnv a b now cid seq st sim h d ba0 bb0 ba1 bb1)).calls
          = fullTrace a b st seq h
      ∧ (fullTrace a b st seq h).get? 7
          = some (Call.createBcsSignedTransaction a stx.payload stx.sequence_number)
      ∧ (fullTrace a b st seq h).get? 8 = some (Call.submitBcsTransaction stx)
      ∧ stx.sequence_number = raw.sequence_number
      ∧ raw.sequence_number = seq
      ∧ stx.payload = raw.payload :=
  ⟨⟨a, seq, ⟨entry_function b⟩, 2000, 100, now + 600, cid⟩,
   ⟨a, ⟨entry_function b⟩, seq⟩,
   rfl, rfl, rfl, rfl, rfl, rfl, rfl, rfl⟩

/-- C2: the RawTransaction assembled by the flow, with max_gas_amount 2000,
gas_unit_price 100 and expiration now + 600, is never itself signed or
submitted.  The one sign call and the one submit call of the trace carry
only the payload and the sequence number (plus the signing account), and the
submitted SignedTransaction is the same for any two environments that differ
in the assembly time now, hence in the assembled expiration: the assembled
gas budget, gas price and expiration do not govern the submitted
transaction. -/
theorem assembled_raw_transaction_not_signed_or_submitted
    (a b now now2 cid seq : Nat) (st : BcsTransaction) (sim : SimulationOutput)
    (h : String) (d : TxDetails) (ba0 bb0 ba1 bb1 : Nat) :
    (mainFlow (okEnv a b now cid seq st sim h d ba0 bb0 ba1 bb1)).locals.raw_transaction
        = some ⟨a, seq, ⟨entry_function b⟩, 2000, 100, now + 600, cid⟩
    ∧ (mainFlow (okEnv a b now cid seq st sim h d ba0 bb0 ba1 bb1)).locals.signed_transaction
        = some ⟨a, ⟨entry_function b⟩, seq⟩
    ∧ (mainFlow (okEnv a b now cid seq st sim h d ba0 bb0 ba1 bb1)).calls
        = fullTrace a b st seq h
    ∧ countKind CallKind.sign (fullTrace a b st seq h) = 1
    ∧ countKind CallKind.submit (fullTrace a b st seq h) = 1
    ∧ (fullTrace a b st seq h).get? 7
        = some (Call.createBcsSignedTransaction a ⟨entry_function b⟩ seq)
    ∧ (fullTrace a b st seq h).get? 8
        = some (Call.submitBcsTransaction ⟨a, ⟨entry_function b⟩, seq⟩)
    ∧ (mainFlow (okEnv a b now cid seq st sim h d ba0 bb0 ba1 bb1)).locals.signed_transaction
        = (mainFlow (okEnv a b now2 cid seq st sim h d ba0 bb0 ba1 bb1)).locals.signed_transaction :=
  ⟨rfl, rfl, rfl, rfl, rfl, rfl, rfl, rfl⟩

/-- C9: the assembled RawTransaction has expiration timestamp equal to the
current time at assembly plus the time-to-live of 600 seconds. -/
theorem expiration_is_now_plus_ttl
    (a b now cid seq : Nat) (st : BcsTransaction) (sim : SimulationOutput)
    (h : String) (d : TxDetails) (ba0 bb0 ba1 bb1 : Nat) :
    (afterBuild (okEnv a b now cid seq st sim h d ba0 bb0 ba1 bb1)).locals.raw_transaction
        = some ⟨a, seq, ⟨entry_function b⟩, 2000, 100, now + 600, cid⟩
    ∧ (mainFlow (okEnv a b now cid seq st sim h d ba0 bb0 ba1 bb1)).locals.raw_transaction
        = some ⟨a, seq, ⟨entry_function b⟩, 2000, 100, now + 600, cid⟩ :=
  ⟨rfl, rfl⟩

/-- C7: the sequence number and the chain identifier of the assembled
RawTransaction are both fetched immediately before building it: after the
initial balance queries no RawTransaction exists yet, the build stage issues
exactly the two adjacent fetches chainId and account and nothing else, and
the RawTransaction is assembled, within that same stage, from exactly the
two fetched values. -/
theorem sequence_and_chain_id_fetched_immediately_before_build
    (a b now cid seq : Nat) (st : BcsTransaction) (sim : SimulationOutput)
    (h : String) (d : TxDetails) (ba0 bb0 ba1 bb1 : Nat) :
    (afterInitialBalances (okEnv a b now cid seq st sim h d ba0 bb0 ba1 bb1)).locals.raw_transaction
        = none
    ∧ (afterInitialBalances (okEnv a b now cid seq st sim h d ba0 bb0 ba1 bb1)).calls
        = [Call.fundAccount a alice_amount, Call.accountBalance a, Call.accountBalance b]
    ∧ (afterBuild (okEnv a b now cid seq st sim h d ba0 bb0 ba1 bb1)).calls
        = (afterInitialBalances (okEnv a b now cid seq st sim h d ba0 bb0 ba1 bb1)).calls
            ++ [Call.chainId, Call.account a]
    ∧ (afterBuild (okEnv a b now cid seq st sim h d ba0 bb0 ba1 bb1)).locals.raw_transaction
        = some ⟨a, seq, ⟨entry_function b⟩, 2000, 100, now + 600, cid⟩
    ∧ (afterBuild (okEnv a b now cid seq st sim h d ba0 bb0 ba1 bb1)).locals.chain_id
        = some cid
    ∧ (afterBuild (okEnv a b now cid seq st sim h d ba0 bb0 ba1 bb1)).locals.sequence_number
        = some seq :=
  ⟨rfl, rfl, rfl, rfl, rfl, rfl⟩

/-- C5: the flow binds the simulation estimate and the confirmed receipt
gas consumption to the same local variable in sequence: after the simulation
stage the gas_used and success locals hold the simulation values, and after
confirmation the very same locals hold the receipt values, so the final
gas-used value read by the flow comes from the confirmed receipt and the
simulation estimate is overwritten and discarded. -/
theorem gas_used_rebound_from_receipt
    (a b now cid seq : Nat) (st : BcsTransaction) (sim : SimulationOutput)
    (h : String) (d : TxDetails) (ba0 bb0 ba1 bb1 : Nat) :
    (afterSimulate (okEnv a b now cid seq st sim h d ba0 bb0 ba1 bb1)).locals.gas_used
        = some sim.gas_used
    ∧ (afterSimulate (okEnv a b now cid seq st sim h d ba0 bb0 ba1 bb1)).locals.success
        = some sim.success
    ∧ (afterConfirm (okEnv a b now cid seq st sim h d ba0 bb0 ba1 bb1)).locals.gas_used
        = some d.gas_used
    ∧ (mainFlow (okEnv a b now cid seq st sim h d ba0 bb0 ba1 bb1)).locals.gas_used
        = some d.gas_used
    ∧ (mainFlow (okEnv a b now cid seq st sim h d ba0 bb0 ba1 bb1)).locals.success
        = some d.success :=
  ⟨rfl, rfl, rfl, rfl, rfl⟩

/-- C10: the flow signs and submits unconditionally, whatever the value of
the predicted-success flag of the simulation: for every flag value s the run
completes without failure and issues the full thirteen-call trace, which
contains exactly one sign call and one submit call, and the trace is
identical for s true and s false. -/
theorem sign_and_submit_unconditional_on_simulation
    (a b now cid seq : Nat) (st : BcsTransaction) (g p : Nat) (r : String) (s : Bool)
    (h : String) (d : TxDetails) (ba0 bb0 ba1 bb1 : Nat) :
    (mainFlow (okEnv a b now cid seq st ⟨g, p, s, r⟩ h d ba0 bb0 ba1 bb1)).failure = none
    ∧ (mainFlow (okEnv a b now cid seq st ⟨g, p, s, r⟩ h d ba0 bb0 ba1 bb1)).calls
        = fullTrace a b st seq h
    ∧ countKind CallKind.sign (fullTrace a b st seq h) = 1
    ∧ countKind CallKind.submit (fullTrace a b st seq h) = 1
    ∧ (mainFlow (okEnv a b now cid seq st ⟨g, p, true, r⟩ h d ba0 bb0 ba1 bb1)).calls
        = (mainFlow (okEnv a b now cid seq st ⟨g, p, false, r⟩ h d ba0 bb0 ba1 bb1)).calls :=
  ⟨rfl, rfl, rfl, rfl, rfl⟩

/-- C3: the end-to-end scenario.  The sender is funded with exactly
100,000,000 base units (the first call of the trace), the transfer
instruction carries exactly 1000 base units, and the assembled
RawTransaction carries the max fee budget 2000 at price 100 per unit.  The
ledger itself is external; its finalized-transfer semantics is modelled from
the spec by instantiating the final balance responses at the honest outcome:
for every fee actually consumed, a run whose final balances follow that
outcome reports the sender balance decreased by 1000 plus the fee and the
recipient balance increased by exactly 1000. -/
theorem end_to_end_scenario_balances
    (a b now cid seq : Nat) (st : BcsTransaction) (sim : SimulationOutput)
    (h : String) (d : TxDetails) (ba bb fee : Nat) :
    (mainFlow (okEnv a b now cid seq st sim h d ba bb (ba - (1000 + fee)) (bb + 1000))).calls.get? 0
        = some (Call.fundAccount a 100000000)
    ∧ (entry_function b).args
        = [⟨ArgValue.addr b, Serializer.struct⟩, ⟨ArgValue.u64 1000, Serializer.u64⟩]
    ∧ (mainFlow (okEnv a b now cid seq st sim h d ba bb (ba - (1000 + fee)) (bb + 1000))).locals.raw_transaction
        = some ⟨a, seq, ⟨entry_function b⟩, 2000, 100, now + 600, cid⟩
    ∧ (mainFlow (okEnv a b now cid seq st sim h d ba bb (ba - (1000 + fee)) (bb + 1000))).locals.alice_balance
        = some ba
    ∧ (mainFlow (okEnv a b now cid seq st sim h d ba bb (ba - (1000 + fee)) (bb + 1000))).locals.bob_balance
        = some bb
    ∧ (mainFlow (okEnv a b now cid seq st sim h d ba bb (ba - (1000 + fee)) (bb + 1000))).locals.alice_final_balance
        = some (ba - (1000 + fee))
    ∧ (mainFlow (okEnv a b now cid seq st sim h d ba bb (ba - (1000 + fee)) (bb + 1000))).locals.bob_final_balance
        = some (bb + 1000)
    ∧ (mainFlow (okEnv a b now cid seq st sim h d ba bb (ba - (1000 + fee)) (bb + 1000))).failure
        = none :=
  ⟨rfl, rfl, rfl, rfl, rfl, rfl, rfl, rfl⟩

/-- C4 counterexample: the claim says the Simulator stage surfaces the
predicted-success flag together with the reason.  The script never reads the
failure reason (the vm_status of the simulation output): two concrete runs
whose simulation responses predict failure with two different reasons are
identical in every observable (locals, trace, failure), so the reason is not
surfaced. -/
theorem simulator_reason_not_surfaced_counterexample :
    ("OUT_OF_GAS" : String) ≠ "ABORTED"
    ∧ mainFlow (okEnv 1 2 0 4 0 9 ⟨5, 100, false, "OUT_OF_GAS"⟩ "0xabc"
          ⟨true, "Executed successfully", 7⟩ 100000000 0 99998900 1000)
        = mainFlow (okEnv 1 2 0 4 0 9 ⟨5, 100, false, "ABORTED"⟩ "0xabc"
          ⟨true, "Executed successfully", 7⟩ 100000000 0 99998900 1000) :=
  ⟨by decide, rfl⟩

/-- C4 amended: when the simulation reports that the transaction would fail,
the Simulator stage does not raise an error or abort the flow: it surfaces
the predicted-success flag (false) in the success local, but not the failure
reason, which the flow never reads (the run is independent of it), and the
flow proceeds through all remaining stages. -/
theorem simulation_failure_does_not_abort
    (a b now cid seq : Nat) (st : BcsTransaction) (g p : Nat) (r r2 : String)
    (h : String) (d : TxDetails) (ba0 bb0 ba1 bb1 : Nat) :
    (afterSimulate (okEnv a b now cid seq st ⟨g, p, false, r⟩ h d ba0 bb0 ba1 bb1)).failure
        = none
    ∧ (afterSimulate (okEnv a b now cid seq st ⟨g, p, false, r⟩ h d ba0 bb0 ba1 bb1)).locals.success
        = some false
    ∧ (mainFlow (okEnv a b now cid seq st ⟨g, p, false, r⟩ h d ba0 bb0 ba1 bb1)).failure
        = none
    ∧ (mainFlow (okEnv a b now cid seq st ⟨g, p, false, r⟩ h d ba0 bb0 ba1 bb1)).calls
        = fullTrace a b st seq h
    ∧ mainFlow (okEnv a b now cid seq st ⟨g, p, false, r⟩ h d ba0 bb0 ba1 bb1)
        = mainFlow (okEnv a b now cid seq st ⟨g, p, false, r2⟩ h d ba0 bb0 ba1 bb1) :=
  ⟨rfl, rfl, rfl, rfl, rfl⟩

/-- Modelled from the spec: the queryBalance operation of the ledger
collaborator (spec section 4.1) is absent from the repository.  The ledger
is a partial map from addresses to balances; an address absent from the map
has never been funded or created on-chain, and querying it fails with
AccountNotFound. -/
def queryBalance (ledger : Address → Option Nat) (a : Address) :
    Except CollabError Nat :=
  match ledger a with
  | none => .error CollabError.AccountNotFound
  | some bal => .ok bal

/-- An environment whose four balance responses follow the spec contract of
queryBalance against a fixed ledger; every other collaborator response
succeeds with arbitrary fixed values (they are unreachable when the initial
recipient query aborts the flow). -/
def specBalanceEnv (ledger : Address → Option Nat) (a b now : Nat) : Env :=
  { okEnv a b now 4 0 0 ⟨0, 100, true, ""⟩ "0x0" ⟨true, "", 0⟩ 0 0 0 0 with
    balanceAliceInitialR := queryBalance ledger a
    balanceBobInitialR := queryBalance ledger b
    balanceAliceFinalR := queryBalance ledger a
    balanceBobFinalR := queryBalance ledger b }

/-- C6: queryBalance fails with AccountNotFound whenever the queried address
has never been funded or created on-chain, and the initial balance query of
the flow for the recipient account, which before that query has only seen
the sender funded and has never been funded itself, fails with
AccountNotFound, aborting the run at that very call. -/
theorem query_balance_unfunded_recipient_not_found
    (ledger : Address → Option Nat) (a b now ba : Nat)
    (hAlice : ledger a = some ba) (hBob : ledger b = none) (hNe : a ≠ b) :
    queryBalance ledger b = .error CollabError.AccountNotFound
    ∧ (mainFlow (specBalanceEnv ledger a b now)).calls
        = [Call.fundAccount a alice_amount, Call.accountBalance a,
           Call.accountBalance b]
    ∧ (mainFlow (specBalanceEnv ledger a b now)).failure
        = some CollabError.AccountNotFound
    ∧ Call.fundAccount b alice_amount ∉ (mainFlow (specBalanceEnv ledger a b now)).calls := by
  have hqa : queryBalance ledger a = .ok ba := by
    simp [queryBalance, hAlice]
  have hqb : queryBalance ledger b = .error CollabError.AccountNotFound := by
    simp [queryBalance, hBob]
  have hrun : mainFlow (specBalanceEnv ledger a b now) =
      ⟨{ alice_balance := some ba },
       [Call.fundAccount a alice_amount, Call.accountBalance a,
        Call.accountBalance b],
       some CollabError.AccountNotFound⟩ := by
    simp only [mainFlow, afterConfirm, afterSubmit, afterSign, afterSimulate,
      afterBuild, afterInitialBalances, afterFund, StageOut.step, stageFund,
      stageInitialBalances, stageBuild, stageSimulate, stageSign, stageSubmit,
      stageConfirm, stageFinalBalances, specBalanceEnv, okEnv, hqa, hqb,
      List.singleton_append]
  refine ⟨hqb, ?_, ?_, ?_⟩
  · rw [hrun]
  · rw [hrun]
  · rw [hrun]
    simp [Ne.symm hNe]

/-- Witness for C6 at a concrete ledger in which address 1 holds the funded
sender balance and address 2 has never been created. -/
theorem query_balance_unfunded_recipient_not_found_witness :
    queryBalance (fun x => if x = 1 then some 100000000 else none) 2
        = .error CollabError.AccountNotFound
    ∧ (mainFlow (specBalanceEnv (fun x => if x = 1 then some 100000000 else none) 1 2 0)).calls
        = [Call.fundAccount 1 alice_amount, Call.accountBalance 1,
           Call.accountBalance 2]
    ∧ (mainFlow (specBalanceEnv (fun x => if x = 1 then some 100000000 else none) 1 2 0)).failure
        = some CollabError.AccountNotFound
    ∧ Call.fundAccount 2 alice_amount
        ∉ (mainFlow (specBalanceEnv (fun x => if x = 1 then some 100000000 else none) 1 2 0)).calls :=
  query_balance_unfunded_recipient_not_found
    (fun x => if x = 1 then some 100000000 else none) 1 2 0 100000000
    (by decide) (by decide) (by decide)

/-- C8 counterexample: the claim says each external operation, the balance
query included, is invoked at most once per run.  In a concrete complete
run the balance query is invoked four times. -/
theorem balance_query_invoked_four_times_counterexample :
    countKind CallKind.balanceQuery
        (mainFlow (okEnv 1 2 0 4 0 9 ⟨5, 100, true, "ok"⟩ "0xabc"
          ⟨true, "Executed successfully", 7⟩ 100000000 0 99998900 1000)).calls = 4
    ∧ ¬ (4 ≤ 1) :=
  ⟨rfl, by decide⟩

/-- C8 amended: a failure raised by any collaborator call aborts the whole
flow immediately and propagates that very error to the caller: a run whose
collaborator fails at call number i issues exactly the first i calls of the
complete trace and reports the collaborator error unchanged, so no call is
ever retried.  Each external operation other than the balance query is
invoked at most once per run (exactly once in a complete run), while the
balance query is invoked four times in a complete run: twice per account,
once before and once after the transfer, never as a retry. -/
theorem stage_failure_aborts_and_no_operation_retried
    (a b now cid seq : Nat) (st : BcsTransaction) (sim : SimulationOutput)
    (h : String) (d : TxDetails) (ba0 bb0 ba1 bb1 : Nat) (e : CollabError) :
    (mainFlow { okEnv a b now cid seq st sim h d ba0 bb0 ba1 bb1 with
        fundAliceR := .error e }).failure = some e
    ∧ (mainFlow { okEnv a b now cid seq st sim h d ba0 bb0 ba1 bb1 with
        fundAliceR := .error e }).calls = (fullTrace a b st seq h).take 1
    ∧ (mainFlow { okEnv a b now cid seq st sim h d ba0 bb0 ba1 bb1 with
        balanceAliceInitialR := .error e }).failure = some e
    ∧ (mainFlow { okEnv a b now cid seq st sim h d ba0 bb0 ba1 bb1 with
        balanceAliceInitialR := .error e }).calls = (fullTrace a b st seq h).take 2
    ∧ (mainFlow { okEnv a b now cid seq st sim h d ba0 bb0 ba1 bb1 with
        balanceBobInitialR := .error e }).failure = some e
    ∧ (mainFlow { okEnv a b now cid seq st sim h d ba0 bb0 ba1 bb1 with
        balanceBobInitialR := .error e }).calls = (fullTrace a b st seq h).take 3
    ∧ (mainFlow { okEnv a b now cid seq st sim h d ba0 bb0 ba1 bb1 with
        chainIdR := .error e }).failure = some e
    ∧ (mainFlow { okEnv a b now cid seq st sim h d ba0 bb0 ba1 bb1 with
        chainIdR := .error e }).calls = (fullTrace a b st seq h).take 4
    ∧ (mainFlow { okEnv a b now cid seq st sim h d ba0 bb0 ba1 bb1 with
        accountAliceR := .error e }).failure = some e
    ∧ (mainFlow { okEnv a b now cid seq st sim h d ba0 bb0 ba1 bb1 with
        accountAliceR := .error e }).calls = (fullTrace a b st seq h).take 5
    ∧ (mainFlow { okEnv a b now cid seq st sim h d ba0 bb0 ba1 bb1 with
        createBcsR := .error e }).failure = some e
    ∧ (mainFlow { okEnv a b now cid seq st sim h d ba0 bb0 ba1 bb1 with
        createBcsR := .error e }).calls = (fullTrace a b st seq h).take 6
    ∧ (mainFlow { okEnv a b now cid seq st sim h d ba0 bb0 ba1 bb1 with
        simulateR := .error e }).failure = some e
    ∧ (mainFlow { okEnv a b now cid seq st sim h d ba0 bb0 ba1 bb1 with
        simulateR := .error e }).calls = (fullTrace a b st seq h).take 7
    ∧ (mainFlow { okEnv a b now cid seq st sim h d ba0 bb0 ba1 bb1 with
        signR := .error e }).failure = some e
    ∧ (mainFlow { okEnv a b now cid seq st sim h d ba0 bb0 ba1 bb1 with
        signR := .error e }).calls = (fullTrace a b st seq h).take 8
    ∧ (mainFlow { okEnv a b now cid seq st sim h d ba0 bb0 ba1 bb1 with
        submitR := .error e }).failure = some e
    ∧ (mainFlow { okEnv a b now cid seq st sim h d ba0 bb0 ba1 bb1 with
        submitR := .error e }).calls = (fullTrace a b st seq h).take 9
    ∧ (mainFlow { okEnv a b now cid seq st sim h d ba0 bb0 ba1 bb1 with
        waitR := .error e }).failure = some e
    ∧ (mainFlow { okEnv a b now cid seq st sim h d ba0 bb0 ba1 bb1 with
        waitR := .error e }).calls = (fullTrace a b st seq h).take 10
    ∧ (mainFlow { okEnv a b now cid seq st sim h d ba0 bb0 ba1 bb1 with
        transactionByHashR := .error e }).failure = some e
    ∧ (mainFlow { okEnv a b now cid seq st sim h d ba0 bb0 ba1 bb1 with
        transactionByHashR := .error e }).calls = (fullTrace a b st seq h).take 11
    ∧ (mainFlow { okEnv a b now cid seq st sim h d ba0 bb0 ba1 bb1 with
        balanceAliceFinalR := .error e }).failure = some e
    ∧ (mainFlow { okEnv a b now cid seq st sim h d ba0 bb0 ba1 bb1 with
        balanceAliceFinalR := .error e }).calls = (fullTrace a b st seq h).take 12
    ∧ (mainFlow { okEnv a b now cid seq st sim h d ba0 bb0 ba1 bb1 with
        balanceBobFinalR := .error e }).failure = some e
    ∧ (mainFlow { okEnv a b now cid seq st sim h d ba0 bb0 ba1 bb1 with
        balanceBobFinalR := .error e }).calls = fullTrace a b st seq h
    ∧ (mainFlow (okEnv a b now cid seq st sim h d ba0 bb0 ba1 bb1)).calls
        = fullTrace a b st seq h
    ∧ countKind CallKind.fund (fullTrace a b st seq h) = 1
    ∧ countKind CallKind.chainIdFetch (fullTrace a b st seq h) = 1
    ∧ countKind CallKind.accountFetch (fullTrace a b st seq h) = 1
    ∧ countKind CallKind.bcsCreate (fullTrace a b st seq h) = 1
    ∧ countKind CallKind.simulate (fullTrace a b st seq h) = 1
    ∧ countKind CallKind.sign (fullTrace a b st seq h) = 1
    ∧ countKind CallKind.submit (fullTrace a b st seq h) = 1
    ∧ countKind CallKind.waitFinal (fullTrace a b st seq h) = 1
    ∧ countKind CallKind.receiptFetch (fullTrace a b st seq h) = 1
    ∧ countKind CallKind.balanceQuery (fullTrace a b st seq h) = 4 :=
  ⟨rfl, rfl, rfl, rfl, rfl, rfl, rfl, rfl, rfl, rfl, rfl, rfl, rfl, rfl,
   rfl, rfl, rfl, rfl, rfl, rfl, rfl, rfl, rfl, rfl, rfl, rfl, rfl, rfl,
   rfl, rfl, rfl, rfl, rfl, rfl, rfl, rfl, rfl⟩
